import Mathlib

/-!
Shallow embedding of `src/pi74HC595/pi74HC595.py`, the driver class for
daisy-chained 74HC595 shift registers, together with proofs about its
public operations.  Python's dynamically typed values are modelled by
`PyVal`; pin-level I/O (`gpio.output`, `gpio.PWM`) is modelled by an
explicit event list; methods that can raise return the raised error next
to the post-state, so that frame conditions ("state unchanged, no pin
writes") are expressible.
-/

/-- Dynamic Python values that can reach the driver's public methods.  A
float is modelled as the exact rational `num / den` it denotes, with `den`
kept positive (e.g. 11.5 is `float 23 2`), so that the comparisons the
driver performs against integer literals are exact. -/
inductive PyVal where
  | int (n : Int)
  | bool (b : Bool)
  | float (num : Int) (den : Int)
  | str (s : String)
  | list (l : List PyVal)
deriving Repr

/-- Python `v == m` for an integer literal `m`: numeric comparison when `v`
is numeric (so `True == 1`, `False == 0` and `1.0 == 1` all hold), `False`
otherwise. -/
def pyEqNum (v : PyVal) (m : Int) : Bool :=
  match v with
  | .int n => n = m
  | .bool b => (if b then (1 : Int) else 0) = m
  | .float num den => num = m * den
  | _ => false

/-- Python `isinstance(v, int)`: true for `int` and for `bool` (a subclass
of `int`). -/
def isInstInt : PyVal → Bool
  | .int _ => true
  | .bool _ => true
  | _ => false

/-- Integer value of a Python `int` or `bool`; 0 for the other types (only
applied after an `isinstance(·, int)` check succeeds). -/
def pyToInt : PyVal → Int
  | .int n => n
  | .bool b => if b then 1 else 0
  | _ => 0

/-- Raised Python exceptions relevant to the driver.  `valueError` is the
spec's `InvalidArgument`. -/
inductive PyError where
  | valueError (msg : String)
  | typeError (msg : String)
  | nameError (missing : String)
deriving Repr, DecidableEq

/-- Observable pin I/O: `gpio.setup`, `gpio.output` writes and the PWM
calls. -/
inductive PinEvent where
  | setupOut (pin : Int)
  | out (pin : Int) (high : Bool)
  | pwmCreate (pin : Int) (freq : Int)
  | pwmStart (duty : Int)
  | pwmChangeDuty (duty : Int)
deriving Repr, DecidableEq

/-- Instance fields of class `pi74HC595` as set in `__init__`. -/
structure Driver where
  data : Int
  parallel : Int
  serial : Int
  output_enable : Int
  pwm_frequency : Int
  daisy_chain : Int
  current : List PyVal
deriving Repr

/-- One iteration of the `_set_values` loop on the shadow list:
`self.current.append(bit)` followed by `del self.current[0]`. -/
def advanceBit (cur : List PyVal) (bit : PyVal) : List PyVal :=
  (cur ++ [bit]).drop 1

/-- Data-line writes of one `_set_values` iteration: HIGH when `bit == 1`,
LOW when `bit == 0`, and no write at all for any other value. -/
def dataLineEvents (dataPin : Int) (bit : PyVal) : List PinEvent :=
  if pyEqNum bit 1 then [.out dataPin true]
  else if pyEqNum bit 0 then [.out dataPin false]
  else []

/-- The `_tick` method: pulse the shift clock line high then low. -/
def tick (serialPin : Int) : List PinEvent :=
  [.out serialPin true, .out serialPin false]

/-- The `_output` method: pulse the storage clock line high then low. -/
def outputPulse (parallelPin : Int) : List PinEvent :=
  [.out parallelPin true, .out parallelPin false]

/-- One iteration of the `_set_values` loop on driver state and event log. -/
def shiftStep (acc : Driver × List PinEvent) (bit : PyVal) : Driver × List PinEvent :=
  ({ acc.1 with current := advanceBit acc.1.current bit },
    acc.2 ++ dataLineEvents acc.1.data bit ++ tick acc.1.serial)

/-- The `_set_values` method: each bit is shifted into the shadow list,
written to the data line and clocked in; afterwards the latch is pulsed. -/
def setValues (st : Driver) (values : List PyVal) : Driver × List PinEvent :=
  let r := values.foldl shiftStep (st, ([] : List PinEvent))
  (r.1, r.2 ++ outputPulse r.1.parallel)

/-- The `get_values` method. -/
def get_values (st : Driver) : List PyVal := st.current

/-- The `clear` method: shift in `[0, 0, 0, 0, 0, 0, 0, 0] * daisy_chain`. -/
def clear (st : Driver) : Driver × List PinEvent :=
  setValues st (List.replicate (8 * st.daisy_chain).toNat (PyVal.int 0))

/-- Result of a `set_by_list` call: post driver, pin writes, raised error,
and the final contents of the caller-supplied argument (the validation
loop overwrites the list's elements in place). -/
structure ListCallResult where
  st : Driver
  events : List PinEvent
  err : Option PyError
  arg : PyVal
deriving Repr

/-- The in-place conversion loop of `set_by_list`: each element equal to
`True` is overwritten with 1, each element equal to `False` with 0, and the
first other element aborts the loop with `ValueError`.  Returns the final
contents of the list and the raised error, if any. -/
def convertLoop : List PyVal → List PyVal × Option PyError
  | [] => ([], none)
  | v :: rest =>
    if pyEqNum v 1 then
      let r := convertLoop rest
      (PyVal.int 1 :: r.1, r.2)
    else if pyEqNum v 0 then
      let r := convertLoop rest
      (PyVal.int 0 :: r.1, r.2)
    else (v :: rest, some (.valueError "Values within list must be 1, 0, or boolean"))

/-- The `set_by_list` method. -/
def set_by_list (st : Driver) (arg : PyVal) : ListCallResult :=
  match arg with
  | .list vs =>
    match convertLoop vs with
    | (final, some e) => ⟨st, [], some e, .list final⟩
    | (final, none) =>
      let r := setValues st final
      ⟨r.1, r.2, none, .list final⟩
  | v => ⟨st, [], some (.valueError "Argument must be a list"), v⟩

/-- Result of a driver call that may raise: post driver, pin writes and the
raised error. -/
structure CallResult where
  st : Driver
  events : List PinEvent
  err : Option PyError
deriving Repr

/-- Python `list(bin(value)[2:])`: the binary digit characters of `value`,
most significant first, each as a one-character string (`Nat.toDigits 2`
yields exactly the digits of `bin`, with 0 giving "0"). -/
def binCharList (n : Nat) : List PyVal :=
  (Nat.toDigits 2 n).map fun c => PyVal.str (String.singleton c)

/-- The `set_by_int` method.  After validation it shifts in
`list(bin(value)[2:])`, a list of characters. -/
def set_by_int (st : Driver) (value : PyVal) : CallResult :=
  if ¬ isInstInt value then ⟨st, [], some (.valueError "Argument must be int")⟩
  else if pyToInt value < 0 then ⟨st, [], some (.valueError "Argument cannot be negative")⟩
  else
    let r := setValues st (binCharList (pyToInt value).toNat)
    ⟨r.1, r.2, none⟩

/-- The `set_by_bool` method: `isinstance(value, bool)` only admits bools;
`True` shifts in `[1]`, `False` shifts in `[0]`. -/
def set_by_bool (st : Driver) (value : PyVal) : CallResult :=
  match value with
  | .bool b =>
    let r := setValues st [if b then PyVal.int 1 else PyVal.int 0]
    ⟨r.1, r.2, none⟩
  | _ => ⟨st, [], some (.valueError "Argument must be boolean")⟩

/-- Result of a setter call: post driver and the raised error. -/
structure SetResult where
  st : Driver
  err : Option PyError
deriving Repr

/-- Shared validation of the four pin-role setters: the argument must be an
`int` within 1..40. -/
def pinArgCheck (pin : PyVal) : Option PyError :=
  if ¬ isInstInt pin then some (.valueError "Argument must be int")
  else if pyToInt pin < 1 ∨ pyToInt pin > 40 then
    some (.valueError "Argument must be within pin range")
  else none

/-- The `set_ds` method.  After validation it executes `self.data = DS`,
but no name `DS` is in scope in the method, so it raises `NameError` and
assigns nothing. -/
def set_ds (st : Driver) (pin : PyVal) : SetResult :=
  match pinArgCheck pin with
  | some e => ⟨st, some e⟩
  | none => ⟨st, some (.nameError "DS")⟩

/-- The `set_sh` method: `self.parallel = DS` raises `NameError` (the name
`DS` is undefined); nothing is assigned. -/
def set_sh (st : Driver) (pin : PyVal) : SetResult :=
  match pinArgCheck pin with
  | some e => ⟨st, some e⟩
  | none => ⟨st, some (.nameError "DS")⟩

/-- The `set_st` method: `self.serial = ST` raises `NameError` (the name
`ST` is undefined); nothing is assigned. -/
def set_st (st : Driver) (pin : PyVal) : SetResult :=
  match pinArgCheck pin with
  | some e => ⟨st, some e⟩
  | none => ⟨st, some (.nameError "ST")⟩

/-- The `set_pwm_pin` method: `self.output_enable = OE` raises `NameError`
(the name `OE` is undefined); nothing is assigned. -/
def set_pwm_pin (st : Driver) (pin : PyVal) : SetResult :=
  match pinArgCheck pin with
  | some e => ⟨st, some e⟩
  | none => ⟨st, some (.nameError "OE")⟩

/-- The `set_daisy_chain` method: validates a positive `int` and stores it;
the shadow list `current` is not resized. -/
def set_daisy_chain (st : Driver) (num : PyVal) : SetResult :=
  if ¬ isInstInt num then ⟨st, some (.valueError "Argument must be int")⟩
  else if pyToInt num < 1 then ⟨st, some (.valueError "Argument must be positive")⟩
  else ⟨{ st with daisy_chain := pyToInt num }, none⟩

/-- The `set_pwn_frequency` method: validates an `int` in 0..100, then
executes `gpio.PWM(self.output_enable, value)` — the argument is used as
the PWM frequency — and starts it at duty cycle 0.  No duty-cycle change to
`value` ever happens. -/
def set_pwn_frequency (st : Driver) (value : PyVal) : List PinEvent × Option PyError :=
  if ¬ isInstInt value then
    ([], some (.valueError "PWM Frequency must be an int from 0 - 100"))
  else if pyToInt value < 0 then
    ([], some (.valueError "PWM Frequency must be an int from 0 - 100"))
  else if pyToInt value > 100 then
    ([], some (.valueError "PWM Frequency must be an int from 0 - 100"))
  else ([.pwmCreate st.output_enable (pyToInt value), .pwmStart 0], none)

/-- Python `v < m` on an `int` literal `m`: exact numeric comparison for
numeric `v`, `TypeError` for the other types. -/
def pyLtNum (v : PyVal) (m : Int) : Except PyError Bool :=
  match v with
  | .int n => .ok (n < m)
  | .bool b => .ok ((if b then (1 : Int) else 0) < m)
  | .float num den => .ok (num < m * den)
  | _ => .error (.typeError "'<' not supported between instances")

/-- Python `v > m` on an `int` literal `m`: exact numeric comparison for
numeric `v`, `TypeError` for the other types. -/
def pyGtNum (v : PyVal) (m : Int) : Except PyError Bool :=
  match v with
  | .int n => .ok (n > m)
  | .bool b => .ok ((if b then (1 : Int) else 0) > m)
  | .float num den => .ok (num > m * den)
  | _ => .error (.typeError "'>' not supported between instances")

/-- One disjunct `pin < 1 or pin > 40` with Python's short-circuit
evaluation. -/
def pinRangeBad (v : PyVal) : Except PyError Bool := do
  if (← pyLtNum v 1) then return true else pyGtNum v 40

/-- Pin-argument validation at the top of `__init__`, exactly as written:
the four `isinstance` checks are joined with `or` (so the `ValueError` only
fires when all four fail), and the range comparison chain then runs on the
raw arguments with Python's left-to-right short-circuit. -/
def initPinCheck (DS ST SH OE : PyVal) : Except PyError Unit := do
  if ¬ (isInstInt DS || isInstInt ST || isInstInt SH || isInstInt OE) then
    throw (.valueError "Pins must be int")
  else if (← pinRangeBad DS) then
    throw (.valueError "Pins (DS, ST, SH, OE) must be within pin range")
  else if (← pinRangeBad ST) then
    throw (.valueError "Pins (DS, ST, SH, OE) must be within pin range")
  else if (← pinRangeBad SH) then
    throw (.valueError "Pins (DS, ST, SH, OE) must be within pin range")
  else if (← pinRangeBad OE) then
    throw (.valueError "Pins (DS, ST, SH, OE) must be within pin range")
  else return ()

/-- The `_setup_board` method's pin I/O. -/
def setupBoard (st : Driver) : List PinEvent :=
  [.setupOut st.data, .out st.data false,
    .setupOut st.parallel, .out st.parallel false,
    .setupOut st.serial, .out st.serial false]

/-- The `__init__` body specialized to integer arguments (the annotated
signature): with them the `isinstance` checks pass, the range and
chain-depth validations run, the fields and the initial shadow list
`[0,0,0,0,0,0,0,0] * daisy_chain` are assigned, the board is set up and
`clear()` runs. -/
def mkDriver (DS ST SH OE daisy_chain PWM_FRQ : Int) :
    Except PyError (Driver × List PinEvent) :=
  if DS < 1 ∨ DS > 40 ∨ ST < 1 ∨ ST > 40 ∨ SH < 1 ∨ SH > 40 ∨ OE < 1 ∨ OE > 40 then
    .error (.valueError "Pins (DS, ST, SH, OE) must be within pin range")
  else if daisy_chain < 1 then .error (.valueError "daisy_chain must be positive")
  else
    let st0 : Driver :=
      { data := DS, parallel := ST, serial := SH, output_enable := OE,
        pwm_frequency := PWM_FRQ, daisy_chain := daisy_chain,
        current := List.replicate (8 * daisy_chain).toNat (PyVal.int 0) }
    let r := clear st0
    .ok (r.1, setupBoard st0 ++ r.2)

/-- A value Python counts as one of `0`, `1`, `True`, `False` (numeric
equality, as the validation loop of `set_by_list` tests it). -/
def isBitLike (v : PyVal) : Bool := pyEqNum v 1 || pyEqNum v 0

/-- The integer the `set_by_list` loop writes back over an element equal to
`True`/1 (namely 1) or `False`/0 (namely 0). -/
def toBit (v : PyVal) : PyVal :=
  if pyEqNum v 1 then PyVal.int 1 else PyVal.int 0

/-- Modelled from the spec claim C9 (statement side, for comparison with
the code): the pin effects the claim predicts for duty value `d` — a PWM
signal created at the driver's configured frequency, started at duty 0,
then stepped to duty `d`. -/
def claimedDutyEffects (st : Driver) (d : Int) : List PinEvent :=
  [.pwmCreate st.output_enable st.pwm_frequency, .pwmStart 0, .pwmChangeDuty d]

/-- A freshly constructed driver at the default pins with one chip (the
state `pi74HC595()` leaves behind). -/
def drv1 : Driver :=
  { data := 11, parallel := 13, serial := 15, output_enable := 33,
    pwm_frequency := 100, daisy_chain := 1,
    current := List.replicate 8 (PyVal.int 0) }

/-- A freshly constructed driver with a daisy chain of two chips. -/
def drv2 : Driver :=
  { data := 11, parallel := 13, serial := 15, output_enable := 33,
    pwm_frequency := 100, daisy_chain := 2,
    current := List.replicate 16 (PyVal.int 0) }

theorem foldl_shiftStep_fst (vs : List PyVal) :
    ∀ (st : Driver) (log : List PinEvent),
      (vs.foldl shiftStep (st, log)).1
        = { st with current := (st.current ++ vs).drop vs.length } := by
  induction vs with
  | nil => intro st log; simp
  | cons b rest ih =>
    intro st log
    rw [List.foldl_cons, shiftStep, ih]
    have hcur : ((st.current ++ [b]).drop 1 ++ rest).drop rest.length
        = (st.current ++ b :: rest).drop (rest.length + 1) := by
      rw [← List.drop_append_of_le_length
            (by simp : 1 ≤ (st.current ++ [b]).length),
        List.drop_drop]
      simp [Nat.add_comm]
    simp only [advanceBit, List.length_cons]
    rw [hcur]

theorem setValues_fst (st : Driver) (vs : List PyVal) :
    (setValues st vs).1 = { st with current := (st.current ++ vs).drop vs.length } := by
  unfold setValues
  rw [foldl_shiftStep_fst]

theorem setValues_current_length (st : Driver) (vs : List PyVal) :
    (setValues st vs).1.current.length = st.current.length := by
  rw [setValues_fst]
  simp

theorem convertLoop_of_bits (vs : List PyVal)
    (h : ∀ v ∈ vs, v = PyVal.int 0 ∨ v = PyVal.int 1) :
    convertLoop vs = (vs, none) := by
  induction vs with
  | nil => rfl
  | cons v rest ih =>
    have hv := h v (List.mem_cons_self v rest)
    have hrest : convertLoop rest = (rest, none) :=
      ih fun w hw => h w (List.mem_cons_of_mem v hw)
    rcases hv with rfl | rfl
    · simp [convertLoop, pyEqNum, hrest]
    · simp [convertLoop, pyEqNum, hrest]

theorem convertLoop_err_iff (vs : List PyVal) :
    (convertLoop vs).2.isSome ↔ ∃ v ∈ vs, isBitLike v = false := by
  induction vs with
  | nil => simp [convertLoop]
  | cons v rest ih =>
    by_cases h1 : pyEqNum v 1
    · simp [convertLoop, h1, ih, isBitLike]
    · by_cases h0 : pyEqNum v 0
      · simp [convertLoop, h1, h0, ih, isBitLike]
      · simp [convertLoop, h1, h0]
        exact Or.inl (by simp [isBitLike, h1, h0])

theorem convertLoop_err_msg (vs : List PyVal) (e : PyError)
    (h : (convertLoop vs).2 = some e) :
    e = .valueError "Values within list must be 1, 0, or boolean" := by
  induction vs with
  | nil => simp [convertLoop] at h
  | cons v rest ih =>
    by_cases h1 : pyEqNum v 1
    · exact ih (by simpa [convertLoop, h1] using h)
    · by_cases h0 : pyEqNum v 0
      · exact ih (by simpa [convertLoop, h1, h0] using h)
      · simp [convertLoop, h1, h0] at h
        exact h.symm

/-- Claim C1: for every driver whose chain capacity is C = 8 × chainDepth
and whose shadow state has that length, shifting a valid bit sequence B of
length L ≤ C in one shift-then-latch transaction via `set_by_list` makes
`get_values()` return a sequence whose last L elements equal B in order and
whose first C − L elements equal the trailing C − L elements of the prior
state. -/
theorem shift_transaction_fifo (st : Driver) (B : List PyVal) (d L : Nat)
    (_hd : st.daisy_chain = (d : Int))
    (hcap : st.current.length = 8 * d)
    (hbits : ∀ b ∈ B, b = PyVal.int 0 ∨ b = PyVal.int 1)
    (hL : B.length = L) (hLC : L ≤ 8 * d) :
    (set_by_list st (PyVal.list B)).err = none ∧
    (get_values (set_by_list st (PyVal.list B)).st).drop (8 * d - L) = B ∧
    (get_values (set_by_list st (PyVal.list B)).st).take (8 * d - L)
      = (get_values st).drop L := by
  have hcv : convertLoop B = (B, none) := convertLoop_of_bits B hbits
  have hres : set_by_list st (PyVal.list B)
      = ⟨(setValues st B).1, (setValues st B).2, none, PyVal.list B⟩ := by
    simp [set_by_list, hcv]
  have hcur : (setValues st B).1.current = st.current.drop L ++ B := by
    rw [setValues_fst]
    show (st.current ++ B).drop B.length = st.current.drop L ++ B
    rw [hL, List.drop_append_of_le_length (by omega)]
  have hlen : (st.current.drop L).length = 8 * d - L := by
    simp [hcap]
  refine ⟨by rw [hres], ?_, ?_⟩
  · rw [hres]
    show (get_values (setValues st B).1).drop (8 * d - L) = B
    rw [get_values, hcur, List.drop_left' hlen]
  · rw [hres]
    show (get_values (setValues st B).1).take (8 * d - L) = (get_values st).drop L
    rw [get_values, hcur, List.take_left' hlen, get_values]

/-- Witness for C1 at a concrete input: driver `drv1` (capacity 8) and the
three-bit sequence `[1, 1, 0]`. -/
theorem shift_transaction_fifo_witness :
    (set_by_list drv1 (PyVal.list [PyVal.int 1, PyVal.int 1, PyVal.int 0])).err = none ∧
    (get_values (set_by_list drv1 (PyVal.list [PyVal.int 1, PyVal.int 1, PyVal.int 0])).st).drop (8 * 1 - 3)
      = [PyVal.int 1, PyVal.int 1, PyVal.int 0] ∧
    (get_values (set_by_list drv1 (PyVal.list [PyVal.int 1, PyVal.int 1, PyVal.int 0])).st).take (8 * 1 - 3)
      = (get_values drv1).drop 3 :=
  shift_transaction_fifo drv1 [PyVal.int 1, PyVal.int 1, PyVal.int 0] 1 3
    rfl rfl (by simp) rfl (by omega)

/-- Claim C2 (code bug): `set_by_int(12)` completes without error, but what
it shifts in is `list(bin(12)[2:])` — the one-character strings "1", "1",
"0", "0" — so the trailing four elements of `get_values()` are strings, not
the integers 1, 1, 0, 0 the claim asserts; and since no string compares
equal to 1 or 0, the loop of `_set_values` never writes the data line: the
pin events are four bare shift-clock pulses and the latch pulse. -/
theorem set_by_int_shifts_characters :
    (set_by_int drv1 (PyVal.int 12)).err = none ∧
    (get_values (set_by_int drv1 (PyVal.int 12)).st).drop 4
      = [PyVal.str "1", PyVal.str "1", PyVal.str "0", PyVal.str "0"] ∧
    (get_values (set_by_int drv1 (PyVal.int 12)).st).drop 4
      ≠ [PyVal.int 1, PyVal.int 1, PyVal.int 0, PyVal.int 0] ∧
    (set_by_int drv1 (PyVal.int 12)).events
      = tick 15 ++ tick 15 ++ tick 15 ++ tick 15 ++ outputPulse 13 := by
  have h2 : (get_values (set_by_int drv1 (PyVal.int 12)).st).drop 4
      = [PyVal.str "1", PyVal.str "1", PyVal.str "0", PyVal.str "0"] := rfl
  refine ⟨rfl, h2, ?_, rfl⟩
  rw [h2]
  simp

/-- Claim C8 (code bug): after the valid call `set_by_int(2)` the shadow
state contains the string elements "1" and "0" (the characters of
`bin(2)`), so not every element of `get_values()` is the integer 0 or 1. -/
theorem shadow_not_bits_after_set_by_int :
    (set_by_int drv1 (PyVal.int 2)).err = none ∧
    PyVal.str "1" ∈ get_values (set_by_int drv1 (PyVal.int 2)).st ∧
    ¬ (∀ b ∈ get_values (set_by_int drv1 (PyVal.int 2)).st,
        b = PyVal.int 0 ∨ b = PyVal.int 1) := by
  have hcur : get_values (set_by_int drv1 (PyVal.int 2)).st
      = [PyVal.int 0, PyVal.int 0, PyVal.int 0, PyVal.int 0, PyVal.int 0,
          PyVal.int 0, PyVal.str "1", PyVal.str "0"] := rfl
  have hmem : PyVal.str "1" ∈ get_values (set_by_int drv1 (PyVal.int 2)).st := by
    rw [hcur]; simp
  refine ⟨rfl, hmem, ?_⟩
  intro h
  have := h (PyVal.str "1") hmem
  simp at this

theorem clear_current (s : Driver) (k : Nat) (hsl : s.current.length = k)
    (hsk : (8 * s.daisy_chain).toNat = k) :
    (clear s).1.current = List.replicate k (PyVal.int 0) := by
  unfold clear
  rw [setValues_fst]
  simp only [List.length_replicate]
  rw [hsk, List.drop_left' hsl]

/-- Claim C3 counterexample: on a fresh two-chip driver, `set_daisy_chain(1)`
followed by `clear()` leaves a 16-element shadow state although
8 × chainDepth is now 8, so `get_values()` is not an all-zero sequence of
length 8 × chainDepth. -/
theorem clear_after_depth_change_cex :
    (set_daisy_chain drv2 (PyVal.int 1)).err = none ∧
    (clear (set_daisy_chain drv2 (PyVal.int 1)).st).1.current
      ≠ List.replicate
          ((8 * (clear (set_daisy_chain drv2 (PyVal.int 1)).st).1.daisy_chain).toNat)
          (PyVal.int 0) := by
  have hlen : (clear (set_daisy_chain drv2 (PyVal.int 1)).st).1.current.length = 16 := rfl
  have hdc : (clear (set_daisy_chain drv2 (PyVal.int 1)).st).1.daisy_chain = 1 := rfl
  refine ⟨rfl, ?_⟩
  intro h
  have hl := congrArg List.length h
  rw [hlen, hdc] at hl
  simp at hl

/-- Claim C3 amended: `clear()` leaves `get_values()` equal to an all-zero
sequence of length 8 × chainDepth provided the shadow state already has
that length (as it does at construction and as long as `set_daisy_chain`
has not changed the depth — the source never resizes the shadow list); and
a freshly constructed driver with chain depth dc starts with a shadow state
of 8 × dc zeros. -/
theorem clear_all_zeros (st : Driver) (d : Nat)
    (hd : st.daisy_chain = (d : Int)) (hlen : st.current.length = 8 * d) :
    (clear st).1.current = List.replicate (8 * d) (PyVal.int 0) ∧
    ∀ DS ST SH OE dc PWM : Int, ∀ drv ev,
      mkDriver DS ST SH OE dc PWM = .ok (drv, ev) →
      drv.current = List.replicate ((8 * dc).toNat) (PyVal.int 0) := by
  constructor
  · exact clear_current st (8 * d) hlen (by rw [hd]; omega)
  · intro DS ST SH OE dc PWM drv ev h
    simp only [mkDriver] at h
    split at h
    · exact absurd h (by simp)
    · split at h
      · exact absurd h (by simp)
      · simp only [Except.ok.injEq, Prod.mk.injEq] at h
        obtain ⟨h1, _⟩ := h
        subst h1
        exact clear_current _ ((8 * dc).toNat) (by simp) rfl

/-- Witness for the amended C3: clearing the fresh one-chip driver `drv1`
yields eight zeros, and every successful construction starts all-zero. -/
theorem clear_all_zeros_witness :
    (clear drv1).1.current = List.replicate (8 * 1) (PyVal.int 0) ∧
    ∀ DS ST SH OE dc PWM : Int, ∀ drv ev,
      mkDriver DS ST SH OE dc PWM = .ok (drv, ev) →
      drv.current = List.replicate ((8 * dc).toNat) (PyVal.int 0) :=
  clear_all_zeros drv1 1 rfl rfl

/-- Claim C4 (code bug): with the valid pin argument 22, each of the four
pin-role setters raises `NameError` — their bodies assign from the
constructor parameter names `DS`/`ST`/`OE`, undefined inside the methods —
and no field is replaced (`set_ds` leaves the data pin at 11). -/
theorem setters_raise_nameerror :
    set_ds drv1 (PyVal.int 22) = ⟨drv1, some (.nameError "DS")⟩ ∧
    set_sh drv1 (PyVal.int 22) = ⟨drv1, some (.nameError "DS")⟩ ∧
    set_st drv1 (PyVal.int 22) = ⟨drv1, some (.nameError "ST")⟩ ∧
    set_pwm_pin drv1 (PyVal.int 22) = ⟨drv1, some (.nameError "OE")⟩ ∧
    (set_ds drv1 (PyVal.int 22)).st.data = 11 :=
  ⟨rfl, rfl, rfl, rfl, rfl⟩

/-- Claim C5 (code bug): the `isinstance` guard of `__init__` joins the
four checks with `or`, so with DS = 11.5 (a float) and the other pins ints
the validation passes entirely — no `InvalidArgument`, and construction
proceeds to field assignment and pin I/O; with DS = "a" the range
comparison raises `TypeError`, not `ValueError`; only when all four pins
are non-int does the intended `ValueError` fire. -/
theorem init_pin_check_or_bug :
    initPinCheck (PyVal.float 23 2) (PyVal.int 13) (PyVal.int 15) (PyVal.int 33)
      = .ok () ∧
    initPinCheck (PyVal.str "a") (PyVal.int 13) (PyVal.int 15) (PyVal.int 33)
      = .error (.typeError "'<' not supported between instances") ∧
    initPinCheck (PyVal.str "a") (PyVal.str "b") (PyVal.str "c") (PyVal.str "d")
      = .error (.valueError "Pins must be int") :=
  ⟨rfl, rfl, rfl⟩

/-- Claim C6: `set_by_list(values)` raises InvalidArgument exactly when the
argument is not a list or some element of it is not 0, 1, True or False
(numeric equality, as Python's `==` tests it); and every raised call
returns a `ValueError`, leaves the shadow state untouched and performs no
pin writes. -/
theorem set_by_list_validation (st : Driver) (arg : PyVal) :
    ((set_by_list st arg).err.isSome ↔
      (∀ vs, arg ≠ PyVal.list vs) ∨
        ∃ vs, arg = PyVal.list vs ∧ ∃ v ∈ vs, isBitLike v = false) ∧
    ∀ e, (set_by_list st arg).err = some e →
      (∃ msg, e = PyError.valueError msg) ∧
      (set_by_list st arg).st = st ∧ (set_by_list st arg).events = [] := by
  cases arg with
  | list vs =>
    rcases hcv : convertLoop vs with ⟨final, oe⟩
    cases oe with
    | none =>
      have hres : set_by_list st (PyVal.list vs)
          = ⟨(setValues st final).1, (setValues st final).2, none, PyVal.list final⟩ := by
        simp [set_by_list, hcv]
      rw [hres]
      constructor
      · simp only [Option.isSome_none, Bool.false_eq_true, false_iff]
        intro hr
        rcases hr with hne | ⟨vs', heq, v, hv, hbit⟩
        · exact hne vs rfl
        · have hvs : vs = vs' := by injection heq
          subst hvs
          have hsome : (convertLoop vs).2.isSome :=
            (convertLoop_err_iff vs).mpr ⟨v, hv, hbit⟩
          rw [hcv] at hsome
          simp at hsome
      · intro e he
        simp at he
    | some e0 =>
      have hres : set_by_list st (PyVal.list vs)
          = ⟨st, [], some e0, PyVal.list final⟩ := by
        simp [set_by_list, hcv]
      rw [hres]
      have hsome : (convertLoop vs).2 = some e0 := by rw [hcv]
      constructor
      · simp only [Option.isSome_some, true_iff]
        exact Or.inr ⟨vs, rfl, (convertLoop_err_iff vs).mp (by rw [hsome]; rfl)⟩
      · intro e he
        simp only [Option.some.injEq] at he
        subst he
        exact ⟨⟨_, convertLoop_err_msg vs e0 hsome⟩, rfl, rfl⟩
  | int n =>
    exact ⟨⟨fun _ => Or.inl fun vs h => PyVal.noConfusion h, fun _ => rfl⟩,
      fun e he => ⟨⟨"Argument must be a list", (Option.some.inj he).symm⟩, rfl, rfl⟩⟩
  | bool b =>
    exact ⟨⟨fun _ => Or.inl fun vs h => PyVal.noConfusion h, fun _ => rfl⟩,
      fun e he => ⟨⟨"Argument must be a list", (Option.some.inj he).symm⟩, rfl, rfl⟩⟩
  | float a b =>
    exact ⟨⟨fun _ => Or.inl fun vs h => PyVal.noConfusion h, fun _ => rfl⟩,
      fun e he => ⟨⟨"Argument must be a list", (Option.some.inj he).symm⟩, rfl, rfl⟩⟩
  | str s =>
    exact ⟨⟨fun _ => Or.inl fun vs h => PyVal.noConfusion h, fun _ => rfl⟩,
      fun e he => ⟨⟨"Argument must be a list", (Option.some.inj he).symm⟩, rfl, rfl⟩⟩

/-- Claim C7: the length of the shadow state never changes after
construction: whatever the argument, each public operation returns a
driver whose `get_values()` has the same length as before the call, since
each shifted bit appends one element and evicts exactly one front
element. -/
theorem shadow_length_invariant (st : Driver) (v : PyVal) :
    (get_values (set_by_list st v).st).length = (get_values st).length ∧
    (get_values (set_by_int st v).st).length = (get_values st).length ∧
    (get_values (set_by_bool st v).st).length = (get_values st).length ∧
    (get_values (clear st).1).length = (get_values st).length ∧
    (get_values (set_ds st v).st).length = (get_values st).length ∧
    (get_values (set_sh st v).st).length = (get_values st).length ∧
    (get_values (set_st st v).st).length = (get_values st).length ∧
    (get_values (set_pwm_pin st v).st).length = (get_values st).length ∧
    (get_values (set_daisy_chain st v).st).length = (get_values st).length := by
  refine ⟨?_, ?_, ?_, ?_, ?_, ?_, ?_, ?_, ?_⟩
  · cases v with
    | list vs =>
      rcases hcv : convertLoop vs with ⟨final, oe⟩
      cases oe with
      | none => simp [set_by_list, hcv, get_values, setValues_current_length]
      | some e => simp [set_by_list, hcv, get_values]
    | int n => rfl
    | bool b => rfl
    | float a b => rfl
    | str s => rfl
  · unfold set_by_int
    split
    · rfl
    · split
      · rfl
      · exact setValues_current_length st _
  · cases v with
    | bool b => exact setValues_current_length st _
    | int n => rfl
    | float a b => rfl
    | str s => rfl
    | list l => rfl
  · exact setValues_current_length st _
  · unfold set_ds
    cases pinArgCheck v <;> rfl
  · unfold set_sh
    cases pinArgCheck v <;> rfl
  · unfold set_st
    cases pinArgCheck v <;> rfl
  · unfold set_pwm_pin
    cases pinArgCheck v <;> rfl
  · unfold set_daisy_chain
    split
    · rfl
    · split <;> rfl

/-- Claim C9 counterexample: at duty value 50 on the default driver (whose
configured PWM frequency field is 100), the call creates the PWM signal at
frequency 50 — the argument itself — and never steps the duty cycle up
from 0, so the pin effects differ from the effects the claim predicts. -/
theorem set_pwn_frequency_cex :
    (set_pwn_frequency drv1 (PyVal.int 50)).2 = none ∧
    (set_pwn_frequency drv1 (PyVal.int 50)).1
      = [PinEvent.pwmCreate 33 50, PinEvent.pwmStart 0] ∧
    (set_pwn_frequency drv1 (PyVal.int 50)).1 ≠ claimedDutyEffects drv1 50 := by
  refine ⟨rfl, rfl, ?_⟩
  have h2 : (set_pwn_frequency drv1 (PyVal.int 50)).1
      = [PinEvent.pwmCreate 33 50, PinEvent.pwmStart 0] := rfl
  rw [h2]
  decide

/-- Claim C9 amended: for an integer argument d with 0 ≤ d ≤ 100 the call
starts a continuous PWM signal on the output-enable pin at frequency d
and duty cycle 0 — it does not use the configured pwm_frequency and never
steps the duty cycle to d; for a non-integer argument or an integer
outside [0, 100] it raises InvalidArgument and performs no pin writes. -/
theorem set_pwn_frequency_spec (st : Driver) (v : PyVal) :
    (∀ n : Int, v = PyVal.int n → 0 ≤ n → n ≤ 100 →
      set_pwn_frequency st v
        = ([PinEvent.pwmCreate st.output_enable n, PinEvent.pwmStart 0], none)) ∧
    ((isInstInt v = false ∨ pyToInt v < 0 ∨ 100 < pyToInt v) →
      set_pwn_frequency st v
        = ([], some (.valueError "PWM Frequency must be an int from 0 - 100"))) := by
  constructor
  · rintro n rfl h0 h100
    show (if ¬ isInstInt (PyVal.int n) = true then _ else _) = _
    rw [if_neg (by simp [isInstInt])]
    show (if pyToInt (PyVal.int n) < 0 then _ else _) = _
    rw [if_neg (by simp [pyToInt]; omega)]
    show (if pyToInt (PyVal.int n) > 100 then _ else _) = _
    rw [if_neg (by simp [pyToInt]; omega)]
    rfl
  · rintro (hni | hlt | hgt)
    · simp [set_pwn_frequency, hni]
    · by_cases hi : isInstInt v
      · simp [set_pwn_frequency, hi, hlt]
      · simp [set_pwn_frequency, hi]
    · have hnlt : ¬ (pyToInt v < 0) := by omega
      by_cases hi : isInstInt v
      · simp [set_pwn_frequency, hi, hnlt, hgt]
      · simp [set_pwn_frequency, hi]

theorem convertLoop_append_bad (good : List PyVal) (bad : PyVal) (rest : List PyVal)
    (hgood : ∀ v ∈ good, isBitLike v = true) (hbad : isBitLike bad = false) :
    convertLoop (good ++ bad :: rest)
      = (good.map toBit ++ bad :: rest,
          some (.valueError "Values within list must be 1, 0, or boolean")) := by
  induction good with
  | nil =>
    simp only [isBitLike, Bool.or_eq_false_iff] at hbad
    simp [convertLoop, hbad.1, hbad.2]
  | cons g gs ih =>
    have hg : isBitLike g = true := hgood g (List.mem_cons_self g gs)
    have hrec := ih fun w hw => hgood w (List.mem_cons_of_mem g hw)
    by_cases hg1 : pyEqNum g 1
    · simp [convertLoop, hg1, hrec, toBit]
    · have hg0 : pyEqNum g 0 = true := by
        simp only [isBitLike, Bool.or_eq_true] at hg
        rcases hg with h | h
        · exact absurd h hg1
        · exact h
      simp [convertLoop, hg1, hg0, hrec, toBit]

/-- Claim C10: `set_by_list` overwrites the caller's list in place — each
element equal to True/1 or False/0 becomes the integer 1 or 0 — so when it
raises on the first invalid element, the elements before it have already
been converted in the caller's list even though the shadow state and pins
are untouched. -/
theorem set_by_list_mutates_argument (st : Driver) (good : List PyVal)
    (bad : PyVal) (rest : List PyVal)
    (hgood : ∀ v ∈ good, isBitLike v = true) (hbad : isBitLike bad = false) :
    (set_by_list st (PyVal.list (good ++ bad :: rest))).err.isSome ∧
    (set_by_list st (PyVal.list (good ++ bad :: rest))).arg
      = PyVal.list (good.map toBit ++ bad :: rest) ∧
    (set_by_list st (PyVal.list (good ++ bad :: rest))).st = st ∧
    (set_by_list st (PyVal.list (good ++ bad :: rest))).events = [] := by
  have hres : set_by_list st (PyVal.list (good ++ bad :: rest))
      = ⟨st, [], some (.valueError "Values within list must be 1, 0, or boolean"),
          PyVal.list (good.map toBit ++ bad :: rest)⟩ := by
    simp [set_by_list, convertLoop_append_bad good bad rest hgood hbad]
  rw [hres]
  exact ⟨rfl, rfl, rfl, rfl⟩

/-- Witness for C10 at the concrete call `set_by_list([True, 0, 5, False])`:
the call raises at the element 5, and by then the caller's list has become
`[1, 0, 5, False]` while the shadow state and pins are untouched. -/
theorem set_by_list_mutates_argument_witness :
    (set_by_list drv1 (PyVal.list ([PyVal.bool true, PyVal.int 0]
        ++ PyVal.int 5 :: [PyVal.bool false]))).err.isSome ∧
    (set_by_list drv1 (PyVal.list ([PyVal.bool true, PyVal.int 0]
        ++ PyVal.int 5 :: [PyVal.bool false]))).arg
      = PyVal.list ([PyVal.bool true, PyVal.int 0].map toBit
          ++ PyVal.int 5 :: [PyVal.bool false]) ∧
    (set_by_list drv1 (PyVal.list ([PyVal.bool true, PyVal.int 0]
        ++ PyVal.int 5 :: [PyVal.bool false]))).st = drv1 ∧
    (set_by_list drv1 (PyVal.list ([PyVal.bool true, PyVal.int 0]
        ++ PyVal.int 5 :: [PyVal.bool false]))).events = [] :=
  set_by_list_mutates_argument drv1 [PyVal.bool true, PyVal.int 0]
    (PyVal.int 5) [PyVal.bool false]
    (by simp [isBitLike, pyEqNum]) rfl
